import Mathlib

/-!
Shallow embedding of the `cotps` repository (an authenticated HTTP polling
client).  The embedded code comes from:

* `src/utils.py`    — `JWT` model and the `ensure_session` / `ensure_connection`
  decorators;
* `src/http_handler.py` — `OAuthClient` (inherited `get`, `start_session`,
  `refresh_session`, abstract hooks);
* `src/cotps.py`    — the concrete `Client` (`refresh_headers`, `is_connected`,
  overridden `post`, `login`, `logout`, `relogin`, `create_order`,
  `confirm_order`, `get_balance`, `make_transactions`);
* `src/config.py`   — endpoint path constants.

The network is modelled as an environment: a finite list of `Response`s that
the transport hands back, one per issued request, in order.  URL joining is
elided (a request is identified by its position in the sequence; the path is
recorded in the event log).  Every operation also logs the events it performs
(requests issued, relogin calls) so that retry/confirmation claims can be
stated.  Mutually recursive operations (`get`/`post`/`login`/`relogin`) are
defined as a fuel-indexed family `ops : Nat → Ops` by structural recursion on
the fuel, so all definitions are executable and kernel-reducible; running out
of fuel or of responses yields the model-artifact errors `outOfFuel` /
`outOfResponses`, which never occur under the hypotheses of the theorems
below.
-/

namespace Cotps

/-! ## JSON values and Python dict/truthiness semantics -/

/-- JSON values as returned by `response.json()`.  Arrays and numbers are
omitted: the modelled endpoints (`config.py`, spec §6) only exchange objects,
booleans and strings (balances arrive as strings). -/
inductive JsonV where
  | null
  | bool (b : Bool)
  | str (s : String)
  | obj (fields : List (String × JsonV))

/-- Errors raised by the embedded code. `connectionMsg` is a Python
`ConnectionError` carrying a message (the two decorators in `utils.py`);
`connectionError` is the `ConnectionError` dict payload raised on non-2xx
responses.  `outOfFuel` / `outOfResponses` are model artifacts. -/
inductive Err where
  | connectionError (status : Nat) (detail : String)
  | connectionMsg (msg : String)
  | attributeError
  | jsonDecodeError
  | runtimeError (msg : String)
  | valueError
  | typeError
  | outOfResponses
  | outOfFuel

/-- Is the error a Python `ConnectionError` (either decorator message or
non-2xx payload)? -/
def Err.isConnectionError : Err → Bool
  | .connectionError _ _ => true
  | .connectionMsg _ => true
  | _ => false

/-- First binding of a key in a JSON object's field list (dict lookup). -/
def jlookup (fs : List (String × JsonV)) (k : String) : Option JsonV :=
  match fs with
  | [] => none
  | (k', v) :: t => if k' == k then some v else jlookup t k

/-- Python `x.get(k, d)`: defined on dicts, raises `AttributeError` on any
other JSON value (str/bool/None have no `.get`). -/
def dictGet (v : JsonV) (k : String) (d : JsonV) : Except Err JsonV :=
  match v with
  | .obj fs => .ok ((jlookup fs k).getD d)
  | _ => .error .attributeError

/-- Python truthiness of a JSON value. -/
def jtruthy : JsonV → Bool
  | .null => false
  | .bool b => b
  | .str s => s != ""
  | .obj fs => !fs.isEmpty

/-- Rendering of a JSON value inside a Python f-string.  Only the string case
is exercised by the embedded code (order ids are strings); the remaining
renderings are schematic. -/
def jformat : JsonV → String
  | .str s => s
  | .bool true => "True"
  | .bool false => "False"
  | .null => "None"
  | .obj _ => "dict"

/-! ## Parsing `float(s)` for balance strings -/

/-- Split a character list at the first dot: integer part and fractional
part. -/
def splitDot : List Char → List Char × List Char
  | [] => ([], [])
  | c :: t => if c = '.' then ([], t) else
      let p := splitDot t
      (c :: p.1, p.2)

/-- Value of a digit list read in base 10. -/
def digitsVal (l : List Char) : Nat :=
  l.foldl (fun a c => a * 10 + (c.toNat - 48)) 0

/-- Python `float(s)` on the decimal fragment of its grammar: an optional
minus sign, digits, an optional dot, digits (at least one digit overall).
`none` models `ValueError`.  Exponents / `inf` / whitespace are outside the
modelled fragment (the server's balance strings are plain decimals). -/
def pfloat (s : String) : Option Rat :=
  let p : Bool × List Char :=
    match s.data with
    | '-' :: t => (true, t)
    | cs => (false, cs)
  let ip := (splitDot p.2).1
  let fp := (splitDot p.2).2
  if (!ip.isEmpty || !fp.isEmpty) && ip.all Char.isDigit && fp.all Char.isDigit
  then
    let v : Rat :=
      mkRat (Int.ofNat (digitsVal ip * 10 ^ fp.length + digitsVal fp)) (10 ^ fp.length)
    some (if p.1 then -v else v)
  else none

/-- Python `float(x)` applied to a JSON value: strings are parsed
(`ValueError` on failure), booleans coerce to 0/1, `None` and dicts raise
`TypeError`. -/
def toFloat : JsonV → Except Err Rat
  | .str s =>
    match pfloat s with
    | some q => .ok q
    | none => .error .valueError
  | .bool b => .ok (if b then 1 else 0)
  | .null => .error .typeError
  | .obj _ => .error .typeError

/-! ## Header dictionaries -/

/-- Header mappings (`self.headers`, `self.session.headers`,
`response.headers`) as association lists with dict semantics. -/
abbrev Headers := List (String × String)

/-- `dict.__setitem__` / single-key `update`: replace the first binding in
place or append. -/
def hset (h : Headers) (k v : String) : Headers :=
  match h with
  | [] => [(k, v)]
  | (k', v') :: t => if k' == k then (k, v) :: t else (k', v') :: hset t k v

/-- `dict.pop(k, None)`: drop every binding of `k` (dicts hold at most
one). -/
def hpop (h : Headers) (k : String) : Headers :=
  h.filter (fun p => p.1 != k)

/-- `k in dict`. -/
def hmem (h : Headers) (k : String) : Bool :=
  h.any (fun p => p.1 == k)

/-- `dict.get(k)` returning the bound value. -/
def hfind (h : Headers) (k : String) : Option String :=
  (h.find? (fun p => p.1 == k)).map (fun p => p.2)

/-- `dict.get(k, d)`. -/
def hgetD (h : Headers) (k d : String) : String :=
  (hfind h k).getD d

/-- `dict.update(other)`. -/
def hupdate (h other : Headers) : Headers :=
  other.foldl (fun acc p => hset acc p.1 p.2) h

/-! ## Server responses and client state -/

/-- One transport response: status code, response headers, body text, and the
result of `response.json()` (`none` when the body is not valid JSON, i.e.
`.json()` raises `JSONDecodeError`). -/
structure Response where
  status : Nat
  headers : Headers
  body : String
  json : Option JsonV

/-- The `JWT` model from `utils.py`.  The client only ever constructs it with
string `access_token`/`token_type`; the never-assigned `expires_in` field is
omitted.  As a pydantic instance it is always truthy, and `!= None` is true
exactly when a token object is stored. -/
structure JWT where
  access_token : String
  token_type : String

/-- Query/body parameter dictionaries (`params`, `data`, `json` arguments). -/
abbrev Params := List (String × JsonV)

/-- The mutable state of a `Client`: its own `headers` dict, the stored
`token` and `cookie`, and `session` (`none` when no transport session is
open, otherwise the session's header dict).  `username`/`pwd`/`login_type`
are carried for fidelity; the base-64 round trip on `pwd` cancels out and is
not modelled. -/
structure ClientState where
  headers : Headers
  token : Option JWT
  cookie : Option String
  session : Option Headers
  sessionExpired : Bool
  username : String
  pwd : String
  login_type : String

/-- Modelled from the spec: the provider-implemented `session_expired` hook
("defines when a 401 should trigger relogin-and-retry").  It is abstract in
`http_handler.py` and the concrete `Client` does not override it, so it is
modelled as a boolean oracle carried in the client state. -/
def session_expired (σ : ClientState) : Bool :=
  σ.sessionExpired

/-- `Client.is_connected`: `"authorization" in self.headers and
self.token != None`. -/
def is_connected (σ : ClientState) : Bool :=
  hmem σ.headers "authorization" && σ.token.isSome

/-! ## refresh_headers / refresh_session / logout -/

/-- Endpoint constants from `config.py`. -/
def LOGIN_URL : String := "/api/mine/sso/user_login_check"

/-- Balance endpoint from `config.py`. -/
def BALANCE_URL : String := "/api/mine/user/getDealInfo"

/-- Order-creation endpoint from `config.py`. -/
def ORDER_CREATE_URL : String := "/api/mine/user/createOrder"

/-- Order-confirmation endpoint from `config.py`. -/
def ORDER_SUBMIT_URL : String := "/api/mine/user/submitOrder"

/-- `Client.refresh_headers(token, remove_token, remove_content_type,
cookie)`.  The `token` argument is the optional dict passed at the two call
sites; Python truthiness of a dict is non-emptiness.  Accessing
`self.session.headers` with no session raises `AttributeError`; the partial
mutation performed before such a raise is not observable in any modelled
scenario and is not tracked. -/
def refresh_headers (σ : ClientState) (token : Option (List (String × String)))
    (remove_token remove_content_type : Bool) (cookie : Option String) :
    Except Err ClientState :=
  let σ1e : Except Err ClientState :=
    if remove_token then
      match σ.session with
      | none => .error .attributeError
      | some sh => .ok { σ with
          token := none,
          cookie := none,
          headers := hpop (hpop σ.headers "authorization") "Cookie",
          session := some (hpop (hpop sh "authorization") "Cookie") }
    else .ok σ
  match σ1e with
  | .error e => .error e
  | .ok σ1 =>
    let σ2e : Except Err ClientState :=
      if remove_content_type then
        match σ1.session with
        | none => .error .attributeError
        | some sh => .ok { σ1 with
            headers := hpop σ1.headers "Content-Type",
            session := some (hpop sh "Content-Type") }
      else .ok σ1
    match σ2e with
    | .error e => .error e
    | .ok σ2 =>
      let σ3 := match token with
        | some td =>
          if !td.isEmpty then
            { σ2 with token := some ⟨hgetD td "token" "", "Bearer"⟩ }
          else σ2
        | none => σ2
      let σ4 := match σ3.token with
        | some j =>
          { σ3 with headers := hset σ3.headers "authorization" (j.token_type ++ " " ++ j.access_token) }
        | none => σ3
      let σ5 :=
        if !hmem σ4.headers "Content-Type" && !remove_content_type then
          { σ4 with headers := hset σ4.headers "Content-Type" "application/json;charset=UTF-8" }
        else σ4
      let σ6 := match cookie with
        | some c => if c != "" then { σ5 with cookie := some c } else σ5
        | none => σ5
      let σ7 := match cookie with
        | some c =>
          if c != "" && !remove_token then
            { σ6 with headers := hset σ6.headers "Cookie" c }
          else σ6
        | none => σ6
      .ok σ7

/-- `OAuthClient.refresh_session`: `self.session.headers.update(self.headers)`
(`AttributeError` with no session). -/
def refresh_session (σ : ClientState) : Except Err ClientState :=
  match σ.session with
  | none => .error .attributeError
  | some sh => .ok { σ with session := some (hupdate sh σ.headers) }

/-! ## Events, run outcomes -/

/-- Instrumentation: the externally visible actions of a run, in order. -/
inductive Event where
  | getReq (path : Option String) (params : Option Params)
  | postReq (path : Option String)
  | reloginEv

/-- Number of `relogin` calls in a log. -/
def countRelogin : List Event → Nat
  | [] => 0
  | .reloginEv :: t => countRelogin t + 1
  | _ :: t => countRelogin t

/-- Values returned to the caller by `get`/`post`: parsed JSON, raw text, the
response headers (headers-only mode) or the raw response (stream mode). -/
inductive Resp where
  | json (v : JsonV)
  | text (s : String)
  | headers (h : Headers)
  | raw (r : Response)

/-- Outcome of running an embedded operation: result or raised error, final
client state, remaining environment, and the event log. -/
structure Out (α : Type) where
  res : Except Err α
  st : ClientState
  env : List Response
  log : List Event

/-- Sequencing: run the continuation on success, propagate a raised error,
concatenating logs (mirrors Python's sequential statements / exception
propagation). -/
def Out.andThen {α β : Type} (o : Out α)
    (f : α → ClientState → List Response → Out β) : Out β :=
  match o.res with
  | .error e => ⟨.error e, o.st, o.env, o.log⟩
  | .ok a =>
    let o2 := f a o.st o.env
    ⟨o2.res, o2.st, o2.env, o.log ++ o2.log⟩

/-- Prefix a log entry onto an outcome. -/
def Out.withLog {α : Type} (l : List Event) (o : Out α) : Out α :=
  ⟨o.res, o.st, o.env, l ++ o.log⟩

/-- Abrupt outcome raising `e`, leaving state/environment unchanged. -/
def errOut {α : Type} (e : Err) (σ : ClientState) (env : List Response) : Out α :=
  ⟨.error e, σ, env, []⟩

/-- Message of the `ConnectionError` raised by `Decorators.ensure_session`
(stand-in for the multi-line f-string in `utils.py`). -/
def startSessionMsg : String :=
  "Start a session with self.start_session() before of make a request"

/-- Message of the `ConnectionError` raised by
`Decorators.ensure_connection`. -/
def disconnectedMsg : String := "Client is now disconnected."

/-- `Client.logout`: no-op when not connected, otherwise clear token, cookie
and headers and refresh the session headers.  Does not issue any request. -/
def logout (σ : ClientState) (env : List Response) : Out Unit :=
  if !is_connected σ then ⟨.ok (), σ, env, []⟩
  else
    match refresh_headers σ none true false none with
    | .error e => errOut e σ env
    | .ok σ1 =>
      match refresh_session σ1 with
      | .error e => errOut e σ1 env
      | .ok σ2 => ⟨.ok (), σ2, env, []⟩

/-! ## The mutually recursive operations, as a fuel-indexed family -/

/-- The operation family at one fuel level: inherited `OAuthClient.get`, the
overridden `Client.post`, `Client.login` and `Client.relogin`. -/
structure Ops where
  get : Option String → Option Params → Bool →
      ClientState → List Response → Out Resp
  post : Option String → Option Params → Option Params → Option Params →
      Bool → ClientState → List Response → Out Resp
  login : ClientState → List Response → Out Unit
  relogin : ClientState → List Response → Out Unit

/-- The operations at fuel `n + 1`; every (mutually) recursive call steps to
level `n`, so the family is structurally recursive and executable.

* `get path params stream`: `OAuthClient.get` — guarded by
  `ensure_session`; issues the request; on `401` with `session_expired`
  relogins and retries; raises `ConnectionError` with status/body on other
  non-2xx; returns the raw response in stream mode, else `response.json()`
  with no fallback (`JSONDecodeError` propagates).
* `post path params data json get_headers`: the overridden `Client.post` —
  NOT guarded by `ensure_session` (accessing `.post` on a `None` session
  raises `AttributeError`); in headers-only mode returns
  `response.headers` before any status check; otherwise the same
  401-relogin-retry (the retry drops `get_headers`), non-2xx raise, and
  `response.json()` with raw-text fallback on `JSONDecodeError`.
* `login`: no-op when connected; otherwise clears token/cookie headers,
  posts the credentials with `get_headers=True`, installs the
  `authorization` / `Set-Cookie` response headers as token and cookie, and
  refreshes the session headers.
* `relogin`: `logout` then `login` (return values ignored; raised errors
  propagate). -/
def ops : Nat → Ops
  | 0 =>
    { get := fun _ _ _ σ env => errOut .outOfFuel σ env
      post := fun _ _ _ _ _ σ env => errOut .outOfFuel σ env
      login := fun σ env => errOut .outOfFuel σ env
      relogin := fun σ env => errOut .outOfFuel σ env }
  | n + 1 =>
    { get := fun path params stream σ env =>
        if σ.session.isNone then errOut (.connectionMsg startSessionMsg) σ env
        else
          match env with
          | [] => errOut .outOfResponses σ env
          | r :: rest =>
            Out.withLog [Event.getReq path params] <|
            if r.status == 401 && session_expired σ then
              ((ops n).relogin σ rest).andThen fun _ σ' env' =>
                (ops n).get path params stream σ' env'
            else if !(200 ≤ r.status && r.status < 300) then
              ⟨.error (.connectionError r.status r.body), σ, rest, []⟩
            else if stream then ⟨.ok (.raw r), σ, rest, []⟩
            else
              match r.json with
              | some v => ⟨.ok (.json v), σ, rest, []⟩
              | none => ⟨.error .jsonDecodeError, σ, rest, []⟩
      post := fun path params data json get_headers σ env =>
        if σ.session.isNone then errOut .attributeError σ env
        else
          match env with
          | [] => errOut .outOfResponses σ env
          | r :: rest =>
            Out.withLog [Event.postReq path] <|
            if get_headers then ⟨.ok (.headers r.headers), σ, rest, []⟩
            else if r.status == 401 && session_expired σ then
              ((ops n).relogin σ rest).andThen fun _ σ' env' =>
                (ops n).post path params data json false σ' env'
            else if !(200 ≤ r.status && r.status < 300) then
              ⟨.error (.connectionError r.status r.body), σ, rest, []⟩
            else
              match r.json with
              | some v => ⟨.ok (.json v), σ, rest, []⟩
              | none => ⟨.ok (.text r.body), σ, rest, []⟩
      login := fun σ env =>
        if is_connected σ then ⟨.ok (), σ, env, []⟩
        else
          match refresh_headers σ none true false none with
          | .error e => errOut e σ env
          | .ok σ1 =>
            ((ops n).post (some LOGIN_URL) none
              (some [("mobile", .str σ1.username),
                     ("password", .str σ1.pwd),
                     ("type", .str σ1.login_type)]) none true σ1 env).andThen
            fun resp σ2 env2 =>
              let hdrs : Headers := match resp with
                | .headers h => h
                | _ => []
              match refresh_headers σ2
                  (some [("token", hgetD hdrs "authorization" "")])
                  false false (some (hgetD hdrs "Set-Cookie" "")) with
              | .error e => errOut e σ2 env2
              | .ok σ3 =>
                match refresh_session σ3 with
                | .error e => errOut e σ3 env2
                | .ok σ4 => ⟨.ok (), σ4, env2, []⟩
      relogin := fun σ env =>
        Out.withLog [Event.reloginEv] <|
        (logout σ env).andThen fun _ σ' env' => (ops n).login σ' env' }

/-- `OAuthClient.get` at a given fuel. -/
def clientGet (fuel : Nat) (path : Option String) (params : Option Params)
    (stream : Bool) (σ : ClientState) (env : List Response) : Out Resp :=
  (ops fuel).get path params stream σ env

/-- `Client.post` at a given fuel. -/
def clientPost (fuel : Nat) (path : Option String) (params data json : Option Params)
    (get_headers : Bool) (σ : ClientState) (env : List Response) : Out Resp :=
  (ops fuel).post path params data json get_headers σ env

/-- `Client.login` at a given fuel. -/
def clientLogin (fuel : Nat) (σ : ClientState) (env : List Response) : Out Unit :=
  (ops fuel).login σ env

/-- `Client.relogin` at a given fuel. -/
def clientRelogin (fuel : Nat) (σ : ClientState) (env : List Response) : Out Unit :=
  (ops fuel).relogin σ env

/-! ## The provider endpoints and the transaction workflow -/

/-- `Client.create_order`: `ensure_connection`, then GET the order-create
endpoint. -/
def create_order (fuel : Nat) (σ : ClientState) (env : List Response) : Out Resp :=
  if !is_connected σ then errOut (.connectionMsg disconnectedMsg) σ env
  else clientGet fuel (some ORDER_CREATE_URL) none false σ env

/-- `Client.confirm_order(order_id)`: `ensure_connection`, then GET the
order-submit endpoint with the id as a query parameter.  The id is whatever
JSON value `make_transactions` extracted (a string on the modelled server). -/
def confirm_order (fuel : Nat) (order_id : JsonV) (σ : ClientState)
    (env : List Response) : Out Resp :=
  if !is_connected σ then errOut (.connectionMsg disconnectedMsg) σ env
  else clientGet fuel (some ORDER_SUBMIT_URL) (some [("orderId", order_id)]) false σ env

/-- `Client.get_balance`: `ensure_connection`, then GET the balance
endpoint. -/
def get_balance (fuel : Nat) (σ : ClientState) (env : List Response) : Out Resp :=
  if !is_connected σ then errOut (.connectionMsg disconnectedMsg) σ env
  else clientGet fuel (some BALANCE_URL) none false σ env

/-- Python `x.get(k, d)` on the value returned by `get` (the expected dict
parses as `.json`; a raw-text 2xx body is a `str`, which has no `.get` and
raises `AttributeError`; headers/stream values are unreachable from the
workflow's `get` calls). -/
def respDictGet (r : Resp) (k : String) (d : JsonV) : Except Err JsonV :=
  match r with
  | .json v => dictGet v k d
  | _ => .error .attributeError

/-- The `while` loop of `Client.make_transactions`, with explicit loop fuel
`lf` (the loop can run forever against an adversarial server; `outOfFuel`
never occurs under the theorems' hypotheses).  Each round: test
`float(balance.get('userinfo', dict()).get('balance', '0.0')) >= 5.0`; when it
holds, create an order, extract `order.get('data', dict()).get('orderId', '')`,
and when `order.get('success', None)` and the id are truthy confirm the order,
raising `RuntimeError` naming the id when the confirmation response's
`success` is not truthy; finally re-fetch the balance and loop. -/
def mtLoop : Nat → Nat → Resp → ClientState → List Response → Out Resp
  | 0, _, _, σ, env => errOut .outOfFuel σ env
  | lf + 1, fuel, balance, σ, env =>
    match respDictGet balance "userinfo" (.obj []) with
    | .error e => errOut e σ env
    | .ok ui =>
      match dictGet ui "balance" (.str "0.0") with
      | .error e => errOut e σ env
      | .ok bv =>
        match toFloat bv with
        | .error e => errOut e σ env
        | .ok b =>
          if b < 5 then ⟨.ok balance, σ, env, []⟩
          else
            (create_order fuel σ env).andThen fun order σ env =>
            match respDictGet order "data" (.obj []) with
            | .error e => errOut e σ env
            | .ok od =>
              match dictGet od "orderId" (.str "") with
              | .error e => errOut e σ env
              | .ok order_id =>
                match respDictGet order "success" .null with
                | .error e => errOut e σ env
                | .ok succ =>
                  if jtruthy succ && jtruthy order_id then
                    (confirm_order fuel order_id σ env).andThen fun confirmed σ env =>
                    match respDictGet confirmed "success" .null with
                    | .error e => errOut e σ env
                    | .ok cs =>
                      if !jtruthy cs then
                        errOut (.runtimeError
                          ("Could not confirm order " ++ jformat order_id ++ ".")) σ env
                      else
                        (get_balance fuel σ env).andThen fun balance σ env =>
                        mtLoop lf fuel balance σ env
                  else
                    (get_balance fuel σ env).andThen fun balance σ env =>
                    mtLoop lf fuel balance σ env

/-- `Client.make_transactions`: `ensure_connection`, fetch the balance, run
the drain loop, return the final balance snapshot. -/
def make_transactions (lf fuel : Nat) (σ : ClientState) (env : List Response) :
    Out Resp :=
  if !is_connected σ then errOut (.connectionMsg disconnectedMsg) σ env
  else
    (get_balance fuel σ env).andThen fun balance σ env =>
    mtLoop lf fuel balance σ env

/-! ## Concrete fixtures used by witnesses and counterexamples -/

/-- A connected client with an open session (the state reached after
`start_session` and a successful `login`). -/
def connectedState : ClientState :=
  { headers := [("authorization", "Bearer tok"),
                ("Content-Type", "application/json;charset=UTF-8")],
    token := some ⟨"tok", "Bearer"⟩, cookie := none,
    session := some [("authorization", "Bearer tok")],
    sessionExpired := false, username := "u", pwd := "pwd",
    login_type := "mobile" }

/-- `connectedState` with the provider's `session_expired` hook answering
`True`. -/
def expiredState : ClientState :=
  { connectedState with sessionExpired := true }

/-- A fresh client with an open transport session but no login performed. -/
def freshState : ClientState :=
  { headers := [], token := none, cookie := none, session := some [],
    sessionExpired := false, username := "u", pwd := "pwd",
    login_type := "mobile" }

/-- A client on which no session was opened (`self.session == None`). -/
def noSessionState : ClientState :=
  { freshState with session := none }

/-- Balance endpoint response: a 200 whose JSON body is
`{userinfo: {balance: "<bs>"}}`. -/
def balResp (bs : String) : Response :=
  ⟨200, [], "", some (.obj [("userinfo", .obj [("balance", .str bs)])])⟩

/-- Order-creation response: a 200 whose JSON body is
`{success: <sc>, data: {orderId: "<oid>"}}`. -/
def orderResp (sc : Bool) (oid : String) : Response :=
  ⟨200, [], "", some (.obj [("success", .bool sc),
                            ("data", .obj [("orderId", .str oid)])])⟩

/-- Order-confirmation response: a 200 whose JSON body is `{success: <sc>}`. -/
def confResp (sc : Bool) : Response :=
  ⟨200, [], "", some (.obj [("success", .bool sc)])⟩

/-- A successful login response: token in `authorization`, cookie in
`Set-Cookie`. -/
def loginResp : Response :=
  ⟨200, [("authorization", "tok2"), ("Set-Cookie", "ck")], "", none⟩

/-- A 401 response (body text `"expired"`). -/
def resp401 : Response := ⟨401, [], "expired", none⟩

/-- A plain 200 JSON response. -/
def respOK : Response := ⟨200, [], "", some (.obj [("success", .bool true)])⟩

/-! ## Server scripts for the transaction workflow

A `Script` describes a deterministic server run for `make_transactions`:
a sequence of balance reports each followed by an order-creation outcome
(successful confirmations inserted where the workflow must confirm), ending
with a balance below the threshold. -/

/-- A deterministic server run: `done bs` reports a final balance `bs`
(below the threshold); `step bs sc oid rest` reports balance `bs` (at or
above the threshold), answers the order creation with `success = sc` and
order id `oid`, answers the confirmation (requested exactly when `sc` holds
and `oid` is non-empty) with success, and continues as `rest`. -/
inductive Script where
  | done (bs : String)
  | step (bs : String) (sc : Bool) (oid : String) (rest : Script)

/-- The response list a script feeds to the client. -/
def compileScript : Script → List Response
  | .done bs => [balResp bs]
  | .step bs sc oid rest =>
      balResp bs :: orderResp sc oid ::
        (if sc && oid != "" then confResp true :: compileScript rest
         else compileScript rest)

/-- Well-formedness: every balance string parses as a float, below 5 at the
end and at least 5 at every step. -/
def scriptWF : Script → Bool
  | .done bs =>
    match pfloat bs with
    | some q => decide (q < 5)
    | none => false
  | .step bs _ _ rest =>
    (match pfloat bs with
     | some q => decide (5 ≤ q)
     | none => false) && scriptWF rest

/-- The balance string of the first report of a script. -/
def headBal : Script → String
  | .done bs => bs
  | .step bs _ _ _ => bs

/-- The final balance string of a script. -/
def lastBal : Script → String
  | .done bs => bs
  | .step _ _ _ rest => lastBal rest

/-- Number of loop iterations a script induces. -/
def scriptSteps : Script → Nat
  | .done _ => 0
  | .step _ _ _ rest => scriptSteps rest + 1

/-- The script's responses after the first balance report. -/
def scriptTail : Script → List Response
  | .done _ => []
  | .step _ sc oid rest =>
      orderResp sc oid ::
        (if sc && oid != "" then confResp true :: compileScript rest
         else compileScript rest)

/-- The JSON value of a balance report. -/
def balJson (bs : String) : JsonV :=
  .obj [("userinfo", .obj [("balance", .str bs)])]

/-- The exact request trace the workflow must produce on a script, after the
initial balance fetch: per step one order creation, the confirmation exactly
when creation succeeded with a non-empty id, then the balance re-fetch. -/
def scriptLog : Script → List Event
  | .done _ => []
  | .step _ sc oid rest =>
      Event.getReq (some ORDER_CREATE_URL) none ::
        ((if sc && oid != "" then
            [Event.getReq (some ORDER_SUBMIT_URL) (some [("orderId", .str oid)])]
          else []) ++
         (Event.getReq (some BALANCE_URL) none :: scriptLog rest))

/-! ## Header-dictionary lemmas -/

theorem hmem_cons (p : String × String) (t : Headers) (k : String) :
    hmem (p :: t) k = (p.1 == k || hmem t k) := rfl

theorem hset_cons (p : String × String) (t : Headers) (k v : String) :
    hset (p :: t) k v = if p.1 == k then (k, v) :: t else p :: hset t k v := by
  obtain ⟨a, b⟩ := p
  rfl

theorem hpop_cons (p : String × String) (t : Headers) (k : String) :
    hpop (p :: t) k = if p.1 != k then p :: hpop t k else hpop t k := by
  simp [hpop, List.filter_cons]

theorem hmem_hset_self (h : Headers) (k v : String) : hmem (hset h k v) k = true := by
  induction h with
  | nil => simp [hset, hmem]
  | cons p t ih =>
    rw [hset_cons]
    by_cases hp : p.1 = k
    · rw [if_pos (by simp [hp]), hmem_cons]
      simp
    · rw [if_neg (by simp [hp]), hmem_cons, ih]
      simp

theorem hmem_hset_ne (h : Headers) (k v k' : String) (hne : k' ≠ k) :
    hmem (hset h k v) k' = hmem h k' := by
  induction h with
  | nil => simp [hset, hmem, Ne.symm hne]
  | cons p t ih =>
    rw [hset_cons]
    by_cases hp : p.1 = k
    · rw [if_pos (by simp [hp]), hmem_cons, hmem_cons, hp]
    · rw [if_neg (by simp [hp]), hmem_cons, hmem_cons, ih]

theorem hmem_hpop_self (h : Headers) (k : String) : hmem (hpop h k) k = false := by
  induction h with
  | nil => rfl
  | cons p t ih =>
    rw [hpop_cons]
    by_cases hp : p.1 = k
    · rw [if_neg (by simp [hp])]
      exact ih
    · rw [if_pos (by simp [hp]), hmem_cons, ih, (by simp [hp] : (p.1 == k) = false)]
      rfl

theorem hmem_hpop_ne (h : Headers) (k k' : String) (hne : k' ≠ k) :
    hmem (hpop h k) k' = hmem h k' := by
  induction h with
  | nil => rfl
  | cons p t ih =>
    rw [hpop_cons]
    by_cases hp : p.1 = k
    · rw [if_neg (by simp [hp]), ih, hmem_cons,
        (show (p.1 == k') = false by simp [hp, Ne.symm hne])]
      simp
    · rw [if_pos (by simp [hp]), hmem_cons, hmem_cons, ih]

/-! ## Claims -/

/-- The invariant claimed by the spec: `authorization` header present iff the
token is non-null, `Cookie` header present iff the stored cookie is
non-null. -/
def headerInvariant (σ : ClientState) : Bool :=
  (hmem σ.headers "authorization" == σ.token.isSome) &&
  (hmem σ.headers "Cookie" == σ.cookie.isSome)

/-- Python truthiness of the `cookie` argument of `refresh_headers`. -/
def cookieTruthy : Option String → Bool
  | some c => c != ""
  | none => false

/-- C4 (amended): starting from any state with an open session that satisfies
the header invariant, `refresh_headers` succeeds and — provided it is not
called with `remove_token=True` together with a truthy `cookie` argument (the
combination refuted by the counterexample) — re-establishes the invariant;
the `authorization`-iff-token half moreover holds for every such call, that
combination included. -/
theorem refresh_headers_invariant_preserved
    (σ : ClientState) (sh : Headers) (token : Option (List (String × String)))
    (rt rct : Bool) (ck : Option String)
    (hsess : σ.session = some sh)
    (hinv : headerInvariant σ = true)
    (hexc : rt = true → cookieTruthy ck = false) :
    ∃ σ', refresh_headers σ token rt rct ck = .ok σ'
      ∧ (hmem σ'.headers "authorization" = σ'.token.isSome)
      ∧ (hmem σ'.headers "Cookie" = σ'.cookie.isSome) := by
  simp only [headerInvariant, Bool.and_eq_true, beq_iff_eq] at hinv
  obtain ⟨hinvA, hinvC⟩ := hinv
  cases rt <;> cases rct <;>
    rcases token with _ | (_ | ⟨tdp, tdt⟩) <;>
    rcases ck with _ | ⟨c⟩ <;>
    rcases htok : σ.token with _ | jwt <;>
    first
      | (by_cases hc : c = "" <;>
          simp_all [refresh_headers, apply_ite, hmem_hset_self, hmem_hset_ne,
            hmem_hpop_self, hmem_hpop_ne, cookieTruthy] <;>
          (try (split <;>
            simp_all [hmem_hset_self, hmem_hset_ne, hmem_hpop_self, hmem_hpop_ne])))
      | (simp_all [refresh_headers, apply_ite, hmem_hset_self, hmem_hset_ne,
          hmem_hpop_self, hmem_hpop_ne, cookieTruthy] <;>
          (try (split <;>
            simp_all [hmem_hset_self, hmem_hset_ne, hmem_hpop_self, hmem_hpop_ne])))

/-- Witness for the amended C4 theorem: a concrete call (install a token and
a cookie on a fresh invariant-satisfying state) re-establishing the
invariant. -/
theorem refresh_headers_invariant_preserved_witness :
    freshState.session = some [] ∧ headerInvariant freshState = true ∧
    (∃ σ', refresh_headers freshState (some [("token", "t")]) false false (some "c")
        = .ok σ'
      ∧ hmem σ'.headers "authorization" = σ'.token.isSome
      ∧ hmem σ'.headers "Cookie" = σ'.cookie.isSome) :=
  ⟨rfl, rfl,
    refresh_headers_invariant_preserved freshState [] (some [("token", "t")])
      false false (some "c") rfl rfl (fun h => nomatch h)⟩

/-- C5 (amended): a 2xx response (outside headers-only and streaming modes)
is parsed as JSON; on a parse failure `post` returns the raw body text, but
`get` raises `JSONDecodeError` (it has no text fallback). -/
theorem success_body_parsing
    (f : Nat) (path : Option String) (params : Option Params) (σ : ClientState)
    (sh : Headers) (r : Response) (rest : List Response)
    (hsess : σ.session = some sh)
    (hlo : 200 ≤ r.status) (hhi : r.status < 300) :
    (clientPost (f + 1) path params none none false σ (r :: rest)).res
        = (match r.json with
           | some v => .ok (.json v)
           | none => .ok (.text r.body))
      ∧ (clientGet (f + 1) path params false σ (r :: rest)).res
        = (match r.json with
           | some v => .ok (.json v)
           | none => .error .jsonDecodeError) := by
  have h401 : r.status ≠ 401 := by omega
  have hcond : ¬(r.status < 200 ∨ 300 ≤ r.status) := by omega
  cases hj : r.json <;>
    simp [clientPost, clientGet, ops, hsess, h401, hlo, hhi, hj, hcond,
      Out.withLog, session_expired]

/-- Witness for the amended C5 theorem: a 201 response whose body is not
JSON — `post` returns the text, `get` raises. -/
theorem success_body_parsing_witness :
    connectedState.session = some [("authorization", "Bearer tok")]
      ∧ 200 ≤ 201 ∧ 201 < 300
      ∧ (clientPost 1 (some "/p") none none none false connectedState
          [⟨201, [], "plain", none⟩]).res = .ok (.text "plain")
      ∧ (clientGet 1 (some "/p") none false connectedState
          [⟨201, [], "plain", none⟩]).res = .error .jsonDecodeError :=
  ⟨rfl, by omega, by omega, by
    have h := success_body_parsing 0 (some "/p") none connectedState
      [("authorization", "Bearer tok")] ⟨201, [], "plain", none⟩ [] rfl
      (by decide) (by decide)
    exact ⟨h.1, h.2⟩⟩

/-- C7 (amended): any response whose status is outside the 2xx range and is
not a 401 with `session_expired` true makes both `get` and a
non-headers-mode `post` raise a `ConnectionError` carrying the status code
and the body text; in headers-only mode `post` returns the headers without
any status check (counterexample), so the "always raises, regardless of
endpoint" phrasing holds only outside that mode. -/
theorem non_2xx_raises
    (f : Nat) (path : Option String) (params : Option Params) (σ : ClientState)
    (sh : Headers) (r : Response) (rest : List Response)
    (hsess : σ.session = some sh)
    (hnot2xx : ¬(200 ≤ r.status ∧ r.status < 300))
    (hno401 : r.status = 401 → σ.sessionExpired = false) :
    (clientGet (f + 1) path params false σ (r :: rest)).res
        = .error (.connectionError r.status r.body)
      ∧ (clientPost (f + 1) path params none none false σ (r :: rest)).res
        = .error (.connectionError r.status r.body) := by
  have hcond : r.status < 200 ∨ 300 ≤ r.status := by omega
  by_cases h401 : r.status = 401
  · have hexp := hno401 h401
    simp [clientGet, clientPost, ops, hsess, h401, hexp, hcond, Out.withLog,
      session_expired]
  · simp [clientGet, clientPost, ops, hsess, h401, hcond, Out.withLog,
      session_expired]

/-- Witness for the amended C7 theorem: a 500 response makes `get` and plain
`post` raise `ConnectionError` with status 500 and the body. -/
theorem non_2xx_raises_witness :
    connectedState.session = some [("authorization", "Bearer tok")]
      ∧ ¬(200 ≤ 500 ∧ 500 < 300)
      ∧ (clientGet 1 (some "/p") none false connectedState
          [⟨500, [], "boom", none⟩]).res = .error (.connectionError 500 "boom")
      ∧ (clientPost 1 (some "/p") none none none false connectedState
          [⟨500, [], "boom", none⟩]).res = .error (.connectionError 500 "boom") :=
  ⟨rfl, by omega, by
    have h := non_2xx_raises 0 (some "/p") none connectedState
      [("authorization", "Bearer tok")] ⟨500, [], "boom", none⟩ [] rfl
      (by decide) (by decide)
    exact ⟨h.1, h.2⟩⟩

theorem refresh_remove_ok (σ : ClientState) (sh : Headers)
    (hsess : σ.session = some sh) :
    ∃ h', refresh_headers σ none true false none
        = .ok { σ with
            token := none,
            cookie := none,
            headers := h',
            session := some (hpop (hpop sh "authorization") "Cookie") }
      ∧ hmem h' "authorization" = false ∧ hmem h' "Cookie" = false
      ∧ hmem h' "Content-Type" = true := by
  by_cases b1 : hmem (hpop (hpop σ.headers "authorization") "Cookie") "Content-Type"
      = true <;>
    simp [refresh_headers, hsess, b1, hmem_hset_self, hmem_hset_ne,
      hmem_hpop_self, hmem_hpop_ne]

theorem logout_disconnects (σ : ClientState) (sh : Headers) (env : List Response)
    (hsess : σ.session = some sh) :
    (logout σ env).res = .ok () ∧ is_connected (logout σ env).st = false := by
  by_cases hc : is_connected σ = true
  · obtain ⟨h', hrm, hA, hC, hT⟩ := refresh_remove_ok σ sh hsess
    have hc' : (hmem σ.headers "authorization" && σ.token.isSome) = true := by
      simpa [is_connected] using hc
    simp [logout, is_connected, hc', hrm, refresh_session, Bool.and_false]
  · have hcf : is_connected σ = false := by simpa using hc
    simp [logout, hcf]

theorem refresh_install (σ : ClientState) (X Y : String)
    (hT : hmem σ.headers "Content-Type" = true) :
    refresh_headers σ (some [("token", X)]) false false (some Y)
      = .ok { σ with
          token := some ⟨X, "Bearer"⟩,
          cookie := if Y != "" then some Y else σ.cookie,
          headers :=
            if Y != "" then
              hset (hset σ.headers "authorization" ("Bearer" ++ " " ++ X)) "Cookie" Y
            else hset σ.headers "authorization" ("Bearer" ++ " " ++ X) } := by
  by_cases bY : Y = "" <;>
    simp [refresh_headers, hT, bY, hgetD, hfind, List.find?,
      hmem_hset_self, hmem_hset_ne]

theorem login_flow (f : Nat) (σ : ClientState) (sh : Headers) (r : Response)
    (rest : List Response) (hsess : σ.session = some sh)
    (hc : is_connected σ = false) :
    ∃ σ', clientLogin (f + 1 + 1) σ (r :: rest)
        = ⟨.ok (), σ', rest, [.postReq (some LOGIN_URL)]⟩
      ∧ is_connected σ' = true
      ∧ σ'.session.isSome = true
      ∧ σ'.token = some ⟨hgetD r.headers "authorization" "", "Bearer"⟩
      ∧ σ'.sessionExpired = σ.sessionExpired := by
  obtain ⟨h', hrm, hA, hC, hT⟩ := refresh_remove_ok σ sh hsess
  have hc' : ¬(hmem σ.headers "authorization" = true ∧ σ.token.isSome = true) := by
    rintro ⟨h1, h2⟩
    simp [is_connected, h1, h2] at hc
  by_cases b2 : hgetD r.headers "Set-Cookie" "" = "" <;>
    simp [clientLogin, ops, hc', hrm, refresh_install, refresh_session,
      Out.andThen, Out.withLog, is_connected, b2, hT,
      hmem_hset_self, hmem_hset_ne, hmem_hpop_self, hmem_hpop_ne]

/-- C3: for every response sequence in which the login endpoint returns a
valid (non-empty) token in its `authorization` header, `is_connected` is true
immediately after `login()` returns and false immediately after `logout()`
returns. -/
theorem login_logout_connected_flag
    (f : Nat) (σ : ClientState) (sh : Headers) (r : Response) (rest : List Response)
    (t : String) (hsess : σ.session = some sh)
    (_htok : hfind r.headers "authorization" = some t) (_hne : t ≠ "") :
    (clientLogin (f + 1 + 1) σ (r :: rest)).res = .ok ()
      ∧ is_connected (clientLogin (f + 1 + 1) σ (r :: rest)).st = true
      ∧ (logout (clientLogin (f + 1 + 1) σ (r :: rest)).st
          (clientLogin (f + 1 + 1) σ (r :: rest)).env).res = .ok ()
      ∧ is_connected (logout (clientLogin (f + 1 + 1) σ (r :: rest)).st
          (clientLogin (f + 1 + 1) σ (r :: rest)).env).st = false := by
  by_cases hc : is_connected σ = true
  · have hL : clientLogin (f + 1 + 1) σ (r :: rest) = ⟨.ok (), σ, r :: rest, []⟩ := by
      simp [clientLogin, ops, hc]
    rw [hL]
    obtain ⟨hres, hdis⟩ := logout_disconnects σ sh (r :: rest) hsess
    exact ⟨rfl, hc, hres, hdis⟩
  · have hcf : is_connected σ = false := by simpa using hc
    obtain ⟨σ', hL, hconn, hs, htk, _⟩ := login_flow f σ sh r rest hsess hcf
    rw [hL]
    obtain ⟨sh', hsh'⟩ := Option.isSome_iff_exists.mp hs
    obtain ⟨hres, hdis⟩ := logout_disconnects σ' sh' rest hsh'
    exact ⟨rfl, hconn, hres, hdis⟩

/-- Witness for the C3 theorem: a fresh session, a login response carrying
token `tok2`. -/
theorem login_logout_connected_flag_witness :
    freshState.session = some [] ∧ hfind loginResp.headers "authorization" = some "tok2"
      ∧ "tok2" ≠ ""
      ∧ ((clientLogin 2 freshState [loginResp]).res = .ok ()
        ∧ is_connected (clientLogin 2 freshState [loginResp]).st = true
        ∧ (logout (clientLogin 2 freshState [loginResp]).st
            (clientLogin 2 freshState [loginResp]).env).res = .ok ()
        ∧ is_connected (logout (clientLogin 2 freshState [loginResp]).st
            (clientLogin 2 freshState [loginResp]).env).st = false) :=
  ⟨rfl, rfl, by decide,
    login_logout_connected_flag 0 freshState [] loginResp [] "tok2" rfl rfl
      (by decide)⟩

/-- C10: for every login response — whatever its status code, including
non-2xx — `login()` on a disconnected client with an open session completes
without raising and leaves `is_connected` true; the headers-only post returns
the response headers before any status check, and when the `authorization`
header is missing the installed token is non-null with an empty access-token
string. -/
theorem login_ignores_status
    (f : Nat) (σ : ClientState) (sh : Headers) (r : Response) (rest : List Response)
    (hsess : σ.session = some sh) (hc : is_connected σ = false) :
    (clientLogin (f + 1 + 1) σ (r :: rest)).res = .ok ()
      ∧ is_connected (clientLogin (f + 1 + 1) σ (r :: rest)).st = true
      ∧ (hfind r.headers "authorization" = none →
          (clientLogin (f + 1 + 1) σ (r :: rest)).st.token = some ⟨"", "Bearer"⟩) := by
  obtain ⟨σ', hL, hconn, _, htk, _⟩ := login_flow f σ sh r rest hsess hc
  rw [hL]
  refine ⟨rfl, hconn, fun hnone => ?_⟩
  simpa [hgetD, hnone] using htk

/-- Witness for the C10 theorem: a 500 login response with no
`authorization` header still leaves the client connected, with an
empty-string token. -/
theorem login_ignores_status_witness :
    freshState.session = some [] ∧ is_connected freshState = false
      ∧ ((clientLogin 2 freshState [⟨500, [], "oops", none⟩]).res = .ok ()
        ∧ is_connected (clientLogin 2 freshState [⟨500, [], "oops", none⟩]).st = true
        ∧ (hfind (⟨500, [], "oops", none⟩ : Response).headers "authorization" = none →
            (clientLogin 2 freshState [⟨500, [], "oops", none⟩]).st.token
              = some ⟨"", "Bearer"⟩)) :=
  ⟨rfl, rfl,
    login_ignores_status 0 freshState [] ⟨500, [], "oops", none⟩ [] rfl rfl⟩

theorem get200 (f : Nat) (path : Option String) (params : Option Params)
    (σ : ClientState) (sh : Headers) (v : JsonV) (r : Response)
    (rest : List Response)
    (hsess : σ.session = some sh) (hst : r.status = 200) (hj : r.json = some v) :
    clientGet (f + 1) path params false σ (r :: rest)
      = ⟨.ok (.json v), σ, rest, [.getReq path params]⟩ := by
  simp [clientGet, ops, hsess, hst, hj, Out.withLog, session_expired]

/-- Decomposition of a compiled script into its first balance report and the
remaining responses. -/
theorem compile_decomp (sp : Script) :
    compileScript sp = balResp (headBal sp) :: scriptTail sp := by
  cases sp <;> rfl

/-- C8: whenever a creation response indicates success and carries a
non-empty order id but the confirmation response's `success` is not truthy,
`make_transactions` fails fatally with a `RuntimeError` naming that order id,
and the confirmation request is issued exactly once (the trace stops at the
single submit request — no retry). -/
theorem confirm_failure_fatal
    (lf f : Nat) (σ : ClientState) (sh : Headers) (q : Rat) (bs oid : String)
    (cfs : List (String × JsonV)) (rest : List Response)
    (hsess : σ.session = some sh) (hconn : is_connected σ = true)
    (hbs : pfloat bs = some q) (hge : 5 ≤ q) (hoid : oid ≠ "")
    (hcs : jtruthy ((jlookup cfs "success").getD .null) = false) :
    make_transactions (lf + 1) (f + 1) σ
        (balResp bs :: orderResp true oid ::
          (⟨200, [], "", some (.obj cfs)⟩ : Response) :: rest)
      = ⟨.error (.runtimeError ("Could not confirm order " ++ oid ++ ".")), σ, rest,
         [.getReq (some BALANCE_URL) none, .getReq (some ORDER_CREATE_URL) none,
          .getReq (some ORDER_SUBMIT_URL) (some [("orderId", .str oid)])]⟩ := by
  have hlt : ¬(q < 5) := not_lt.mpr hge
  have hbal := get200 f (some BALANCE_URL) none σ sh
    (balJson bs) (balResp bs) (orderResp true oid ::
      (⟨200, [], "", some (.obj cfs)⟩ : Response) :: rest) hsess rfl rfl
  have hord := get200 f (some ORDER_CREATE_URL) none σ sh
    (.obj [("success", .bool true), ("data", .obj [("orderId", .str oid)])])
    (orderResp true oid) ((⟨200, [], "", some (.obj cfs)⟩ : Response) :: rest)
    hsess rfl rfl
  have hcf := get200 f (some ORDER_SUBMIT_URL) (some [("orderId", .str oid)]) σ sh
    (.obj cfs) (⟨200, [], "", some (.obj cfs)⟩ : Response) rest hsess rfl rfl
  have hid : jtruthy (.str oid) = true := by simp [jtruthy, hoid]
  have hsucc : jtruthy (.bool true) = true := rfl
  simp [make_transactions, mtLoop, get_balance, create_order, confirm_order,
    hconn, hbal, hord, hcf, Out.andThen, respDictGet, dictGet, jlookup, balJson,
    toFloat, hbs, hlt, hsucc, hid, hcs, jformat, errOut]

/-- Witness for the C8 theorem: balance 12.0, successful creation of order
`o1`, confirmation answered with `success: false`. -/
theorem confirm_failure_fatal_witness :
    connectedState.session = some [("authorization", "Bearer tok")]
      ∧ is_connected connectedState = true
      ∧ pfloat "12.0" = some 12 ∧ (5 : Rat) ≤ 12 ∧ ("o1" : String) ≠ ""
      ∧ jtruthy ((jlookup [("success", JsonV.bool false)] "success").getD .null) = false
      ∧ make_transactions 1 1 connectedState
          [balResp "12.0", orderResp true "o1",
           ⟨200, [], "", some (.obj [("success", .bool false)])⟩]
        = ⟨.error (.runtimeError "Could not confirm order o1."), connectedState, [],
           [.getReq (some BALANCE_URL) none, .getReq (some ORDER_CREATE_URL) none,
            .getReq (some ORDER_SUBMIT_URL) (some [("orderId", .str "o1")])]⟩ :=
  ⟨rfl, rfl, by decide, by decide, by decide, rfl,
    confirm_failure_fatal 0 0 connectedState [("authorization", "Bearer tok")]
      12 "12.0" "o1" [("success", JsonV.bool false)] [] rfl rfl (by decide)
      (by decide) (by decide) rfl⟩

set_option maxRecDepth 40000 in
theorem mtLoop_script (sp : Script) :
    ∀ (lf f : Nat) (σ : ClientState) (sh : Headers),
    σ.session = some sh → is_connected σ = true → scriptWF sp = true →
    scriptSteps sp < lf →
    mtLoop lf (f + 1) (.json (balJson (headBal sp))) σ (scriptTail sp)
      = ⟨.ok (.json (balJson (lastBal sp))), σ, [], scriptLog sp⟩ := by
  induction sp with
  | done bs =>
    intro lf f σ sh hsess hconn hwf hlf
    obtain ⟨lf', rfl⟩ : ∃ lf', lf = lf' + 1 := ⟨lf - 1, by omega⟩
    revert hwf
    simp only [scriptWF]
    cases hq : pfloat bs with
    | none => intro h; exact absurd h (by simp)
    | some q =>
      intro hwf
      have hlt : q < 5 := of_decide_eq_true hwf
      simp [mtLoop, respDictGet, dictGet, jlookup, balJson, toFloat, hq, hlt,
        headBal, lastBal, scriptTail, scriptLog]
  | step bs sc oid rest ih =>
    intro lf f σ sh hsess hconn hwf hlf
    obtain ⟨lf', rfl⟩ : ∃ lf', lf = lf' + 1 := ⟨lf - 1, by omega⟩
    rw [scriptWF] at hwf
    rw [Bool.and_eq_true] at hwf
    obtain ⟨hwfb, hwfr⟩ := hwf
    revert hwfb
    cases hq : pfloat bs with
    | none => intro h; exact absurd h (by simp)
    | some q =>
      intro hwfb
      have hge : 5 ≤ q := of_decide_eq_true hwfb
      have hlt : ¬(q < 5) := not_lt.mpr hge
      have hlf' : scriptSteps rest < lf' := by
        rw [scriptSteps] at hlf
        omega
      have hih := ih lf' f σ sh hsess hconn hwfr hlf'
      have e1 : respDictGet (.json (balJson bs)) "userinfo" (JsonV.obj [])
          = .ok (.obj [("balance", JsonV.str bs)]) := rfl
      have e2 : dictGet (.obj [("balance", JsonV.str bs)]) "balance" (.str "0.0")
          = .ok (.str bs) := rfl
      cases hcase : (sc && oid != "") with
      | true =>
        obtain ⟨hsc', hoid'⟩ := (Bool.and_eq_true _ _).mp hcase
        subst hsc'
        simp only [headBal, scriptTail, scriptLog, lastBal, hcase,
          eq_self_iff_true, if_true]
        rw [compile_decomp]
        have hord := get200 f (some ORDER_CREATE_URL) none σ sh
          (.obj [("success", .bool true), ("data", .obj [("orderId", .str oid)])])
          (orderResp true oid)
          (confResp true :: balResp (headBal rest) :: scriptTail rest) hsess rfl rfl
        have hcf := get200 f (some ORDER_SUBMIT_URL)
          (some [("orderId", .str oid)]) σ sh (.obj [("success", .bool true)])
          (confResp true) (balResp (headBal rest) :: scriptTail rest) hsess rfl rfl
        have hbal := get200 f (some BALANCE_URL) none σ sh
          (balJson (headBal rest)) (balResp (headBal rest)) (scriptTail rest)
          hsess rfl rfl
        have hid : jtruthy (JsonV.str oid) = true := hoid'
        have e3 : respDictGet (.json (.obj [("success", JsonV.bool true),
              ("data", JsonV.obj [("orderId", JsonV.str oid)])])) "data" (JsonV.obj [])
            = .ok (.obj [("orderId", JsonV.str oid)]) := rfl
        have e4 : dictGet (.obj [("orderId", JsonV.str oid)]) "orderId" (.str "")
            = .ok (.str oid) := rfl
        have e5 : respDictGet (.json (.obj [("success", JsonV.bool true),
              ("data", JsonV.obj [("orderId", JsonV.str oid)])])) "success" JsonV.null
            = .ok (.bool true) := rfl
        have e6 : respDictGet (.json (.obj [("success", JsonV.bool true)]))
              "success" JsonV.null = .ok (.bool true) := rfl
        simp only [mtLoop, e1, e2, toFloat, hq]
        rw [if_neg hlt]
        simp only [create_order, confirm_order, get_balance, hconn, Bool.not_true,
          Bool.false_eq_true, if_false, hord, hcf, hbal, Out.andThen, e3, e4, e5,
          e6, hid, hih, jtruthy, Bool.and_self, Bool.not_false, if_true]
        simp [hoid']
      | false =>
        simp only [headBal, scriptTail, scriptLog, lastBal, hcase,
          Bool.false_eq_true, if_false]
        rw [compile_decomp]
        have hord := get200 f (some ORDER_CREATE_URL) none σ sh
          (.obj [("success", .bool sc), ("data", .obj [("orderId", .str oid)])])
          (orderResp sc oid) (balResp (headBal rest) :: scriptTail rest) hsess rfl rfl
        have hbal := get200 f (some BALANCE_URL) none σ sh
          (balJson (headBal rest)) (balResp (headBal rest)) (scriptTail rest)
          hsess rfl rfl
        have hfalse : (jtruthy (JsonV.bool sc) && jtruthy (JsonV.str oid)) = false := by
          simpa [jtruthy] using hcase
        have e3 : respDictGet (.json (.obj [("success", JsonV.bool sc),
              ("data", JsonV.obj [("orderId", JsonV.str oid)])])) "data" (JsonV.obj [])
            = .ok (.obj [("orderId", JsonV.str oid)]) := rfl
        have e4 : dictGet (.obj [("orderId", JsonV.str oid)]) "orderId" (.str "")
            = .ok (.str oid) := rfl
        have e5 : respDictGet (.json (.obj [("success", JsonV.bool sc),
              ("data", JsonV.obj [("orderId", JsonV.str oid)])])) "success" JsonV.null
            = .ok (.bool sc) := rfl
        simp only [mtLoop, e1, e2, toFloat, hq]
        rw [if_neg hlt]
        simp only [create_order, get_balance, hconn, Bool.not_true,
          Bool.false_eq_true, if_false, hord, hbal, Out.andThen, e3, e4, e5,
          hfalse, hih]
        simp

/-- C2: for every deterministic server script in which each
create/confirm cycle's balance reports eventually drop below `5.0` (each step
reports a parsable balance ≥ 5 and the final report is < 5, with successful
confirmations answered where required), `make_transactions()` terminates with
the final balance response, and the request trace confirms every order whose
creation response reported success with a non-empty id — never skipping a
confirmation.  The fuel hypotheses (`scriptSteps sp < lf`, positive transport
fuel) are model artifacts: the script bounds the iteration count. -/
theorem make_transactions_script_runs
    (sp : Script) (lf f : Nat) (σ : ClientState) (sh : Headers)
    (hsess : σ.session = some sh) (hconn : is_connected σ = true)
    (hwf : scriptWF sp = true) (hlf : scriptSteps sp < lf) :
    make_transactions lf (f + 1) σ (compileScript sp)
      = ⟨.ok (.json (balJson (lastBal sp))), σ, [],
         .getReq (some BALANCE_URL) none :: scriptLog sp⟩ := by
  have hbal := get200 f (some BALANCE_URL) none σ sh
    (balJson (headBal sp)) (balResp (headBal sp)) (scriptTail sp) hsess rfl rfl
  have hloop := mtLoop_script sp lf f σ sh hsess hconn hwf hlf
  rw [compile_decomp]
  simp [make_transactions, get_balance, hconn, hbal, Out.andThen, hloop]

/-- Witness for the C2 theorem: the spec's example run — balance 12.0, one
successfully created and confirmed order, final balance 2.0; the trace shows
the confirmation of order `o1` was performed. -/
theorem make_transactions_script_runs_witness :
    connectedState.session = some [("authorization", "Bearer tok")]
      ∧ is_connected connectedState = true
      ∧ scriptWF (.step "12.0" true "o1" (.done "2.0")) = true
      ∧ scriptSteps (.step "12.0" true "o1" (.done "2.0")) < 2
      ∧ make_transactions 2 1 connectedState
          (compileScript (.step "12.0" true "o1" (.done "2.0")))
        = ⟨.ok (.json (balJson "2.0")), connectedState, [],
           [.getReq (some BALANCE_URL) none, .getReq (some ORDER_CREATE_URL) none,
            .getReq (some ORDER_SUBMIT_URL) (some [("orderId", .str "o1")]),
            .getReq (some BALANCE_URL) none]⟩ :=
  ⟨rfl, rfl, by decide, by decide,
    make_transactions_script_runs (.step "12.0" true "o1" (.done "2.0")) 2 0
      connectedState [("authorization", "Bearer tok")] rfl rfl (by decide)
      (by decide)⟩

theorem get_resolve (f : Nat) (path : Option String) (params : Option Params)
    (σ : ClientState) (sh : Headers) (r : Response) (rest : List Response)
    (hsess : σ.session = some sh) (hno : r.status ≠ 401) :
    clientGet (f + 1) path params false σ (r :: rest)
      = ⟨(if 200 ≤ r.status ∧ r.status < 300 then
            match r.json with
            | some v => .ok (.json v)
            | none => .error .jsonDecodeError
          else .error (.connectionError r.status r.body)), σ, rest,
         [.getReq path params]⟩ := by
  by_cases h2 : 200 ≤ r.status ∧ r.status < 300
  · have hcond : ¬(r.status < 200 ∨ 300 ≤ r.status) := by omega
    cases hj : r.json <;>
      simp [clientGet, ops, hsess, hno, hj, h2, hcond, Out.withLog,
        session_expired]
  · have hcond : r.status < 200 ∨ 300 ≤ r.status := by
      rcases Nat.lt_or_ge r.status 200 with h | h
      · exact Or.inl h
      · exact Or.inr (by omega)
    simp [clientGet, ops, hsess, hno, h2, hcond, Out.withLog, session_expired]

theorem post_resolve (f : Nat) (path : Option String) (params : Option Params)
    (σ : ClientState) (sh : Headers) (r : Response) (rest : List Response)
    (hsess : σ.session = some sh) (hno : r.status ≠ 401) :
    clientPost (f + 1) path params none none false σ (r :: rest)
      = ⟨(if 200 ≤ r.status ∧ r.status < 300 then
            match r.json with
            | some v => .ok (.json v)
            | none => .ok (.text r.body)
          else .error (.connectionError r.status r.body)), σ, rest,
         [.postReq path]⟩ := by
  by_cases h2 : 200 ≤ r.status ∧ r.status < 300
  · have hcond : ¬(r.status < 200 ∨ 300 ≤ r.status) := by omega
    cases hj : r.json <;>
      simp [clientPost, ops, hsess, hno, hj, h2, hcond, Out.withLog,
        session_expired]
  · have hcond : r.status < 200 ∨ 300 ≤ r.status := by
      rcases Nat.lt_or_ge r.status 200 with h | h
      · exact Or.inl h
      · exact Or.inr (by omega)
    simp [clientPost, ops, hsess, hno, h2, hcond, Out.withLog, session_expired]

theorem logout_outcome (σ : ClientState) (sh : Headers) (env : List Response)
    (hsess : σ.session = some sh) :
    ∃ σL shL, logout σ env = ⟨.ok (), σL, env, []⟩ ∧ is_connected σL = false
      ∧ σL.session = some shL ∧ σL.sessionExpired = σ.sessionExpired := by
  by_cases hc : is_connected σ = true
  · obtain ⟨h', hrm, hA, hC, hT⟩ := refresh_remove_ok σ sh hsess
    have hc' : (hmem σ.headers "authorization" && σ.token.isSome) = true := by
      simpa [is_connected] using hc
    refine ⟨{ σ with
        token := none,
        cookie := none,
        headers := h',
        session := some (hupdate (hpop (hpop sh "authorization") "Cookie") h') },
      hupdate (hpop (hpop sh "authorization") "Cookie") h', ?_, ?_, rfl, rfl⟩
    · simp [logout, is_connected, hc', hrm, refresh_session]
    · simp [is_connected, Bool.and_false]
  · have hcf : is_connected σ = false := by simpa using hc
    exact ⟨σ, sh, by simp [logout, hcf], hcf, hsess, rfl⟩

theorem relogin_flow (f : Nat) (σ : ClientState) (sh : Headers) (r : Response)
    (rest : List Response) (hsess : σ.session = some sh) :
    ∃ σ', clientRelogin (f + 1 + 1 + 1) σ (r :: rest)
        = ⟨.ok (), σ', rest, [.reloginEv, .postReq (some LOGIN_URL)]⟩
      ∧ is_connected σ' = true ∧ σ'.session.isSome = true
      ∧ σ'.sessionExpired = σ.sessionExpired := by
  obtain ⟨σL, shL, hlo, hdis, hsL, hexpL⟩ := logout_outcome σ sh (r :: rest) hsess
  obtain ⟨σ', hlg, hconn, hs', _, hexp'⟩ := login_flow f σL shL r rest hsL hdis
  refine ⟨σ', ?_, hconn, hs', by rw [hexp', hexpL]⟩
  simp only [clientLogin] at hlg
  have hstep : clientRelogin (f + 1 + 1 + 1) σ (r :: rest)
      = Out.withLog [.reloginEv] ((logout σ (r :: rest)).andThen
          fun _ σ' env' => (ops (f + 1 + 1)).login σ' env') := rfl
  rw [hstep, hlo]
  simp only [Out.andThen]
  rw [hlg]
  simp [Out.withLog]

theorem get401_step (n : Nat) (path : Option String) (params : Option Params)
    (stream : Bool) (σ : ClientState) (sh : Headers) (r : Response)
    (env : List Response) (hsess : σ.session = some sh) (h401 : r.status = 401)
    (hexp : σ.sessionExpired = true) :
    clientGet (n + 1) path params stream σ (r :: env)
      = Out.withLog [.getReq path params]
          (((ops n).relogin σ env).andThen
            fun _ σ' env' => (ops n).get path params stream σ' env') := by
  simp [clientGet, ops, hsess, h401, hexp, session_expired, Out.withLog]

theorem post401_step (n : Nat) (path : Option String)
    (params data json : Option Params) (σ : ClientState) (sh : Headers)
    (r : Response) (env : List Response) (hsess : σ.session = some sh)
    (h401 : r.status = 401) (hexp : σ.sessionExpired = true) :
    clientPost (n + 1) path params data json false σ (r :: env)
      = Out.withLog [.postReq path]
          (((ops n).relogin σ env).andThen
            fun _ σ' env' => (ops n).post path params data json false σ' env') := by
  simp [clientPost, ops, hsess, h401, hexp, session_expired, Out.withLog]

/-- C1 (amended): when a `get` or non-headers-mode `post` response is a 401
with `session_expired` true, one relogin followed by one retried request
occurs; provided the retried request's response is not again a 401, that is
the only relogin and the only retry (the trace is exactly: original request,
relogin with its login post, one retry), and the call resolves on the
retried response — a success or the final failure that response dictates.
When the server answers the retry with another 401, the relogin-and-retry
repeats with no recursion bound (see the counterexample), so "no second
relogin-and-retry" holds only when the retried response is not another
handled 401. -/
theorem relogin_retry_once_unless_repeat_401
    (f : Nat) (path : Option String) (params : Option Params) (σ : ClientState)
    (sh : Headers) (r1 rl r2 : Response) (rest : List Response)
    (hsess : σ.session = some sh) (hexp : σ.sessionExpired = true)
    (h401 : r1.status = 401) (hno : r2.status ≠ 401) :
    ((clientGet (f + 1 + 1 + 1 + 1) path params false σ (r1 :: rl :: r2 :: rest)).log
        = [.getReq path params, .reloginEv, .postReq (some LOGIN_URL),
           .getReq path params]
      ∧ (clientGet (f + 1 + 1 + 1 + 1) path params false σ (r1 :: rl :: r2 :: rest)).env
        = rest
      ∧ (clientGet (f + 1 + 1 + 1 + 1) path params false σ (r1 :: rl :: r2 :: rest)).res
        = (if 200 ≤ r2.status ∧ r2.status < 300 then
             match r2.json with
             | some v => .ok (.json v)
             | none => .error .jsonDecodeError
           else .error (.connectionError r2.status r2.body)))
    ∧ ((clientPost (f + 1 + 1 + 1 + 1) path params none none false σ
          (r1 :: rl :: r2 :: rest)).log
        = [.postReq path, .reloginEv, .postReq (some LOGIN_URL), .postReq path]
      ∧ (clientPost (f + 1 + 1 + 1 + 1) path params none none false σ
          (r1 :: rl :: r2 :: rest)).env = rest
      ∧ (clientPost (f + 1 + 1 + 1 + 1) path params none none false σ
          (r1 :: rl :: r2 :: rest)).res
        = (if 200 ≤ r2.status ∧ r2.status < 300 then
             match r2.json with
             | some v => .ok (.json v)
             | none => .ok (.text r2.body)
           else .error (.connectionError r2.status r2.body))) := by
  obtain ⟨σ', hre, _, hs', _⟩ := relogin_flow f σ sh rl (r2 :: rest) hsess
  obtain ⟨sh', hsh'⟩ := Option.isSome_iff_exists.mp hs'
  simp only [clientRelogin] at hre
  have hresG := get_resolve (f + 1 + 1) path params σ' sh' r2 rest hsh' hno
  have hresP := post_resolve (f + 1 + 1) path params σ' sh' r2 rest hsh' hno
  simp only [clientGet] at hresG
  simp only [clientPost] at hresP
  have hG : (clientGet (f + 1 + 1 + 1 + 1) path params false σ
      (r1 :: rl :: r2 :: rest)).log
        = [.getReq path params, .reloginEv, .postReq (some LOGIN_URL),
           .getReq path params]
      ∧ (clientGet (f + 1 + 1 + 1 + 1) path params false σ
          (r1 :: rl :: r2 :: rest)).env = rest
      ∧ (clientGet (f + 1 + 1 + 1 + 1) path params false σ
          (r1 :: rl :: r2 :: rest)).res
        = (if 200 ≤ r2.status ∧ r2.status < 300 then
             match r2.json with
             | some v => .ok (.json v)
             | none => .error .jsonDecodeError
           else .error (.connectionError r2.status r2.body)) := by
    rw [get401_step (f + 1 + 1 + 1) path params false σ sh r1 (rl :: r2 :: rest)
      hsess h401 hexp, hre]
    simp only [Out.andThen]
    rw [hresG]
    simp [Out.withLog]
  have hP : (clientPost (f + 1 + 1 + 1 + 1) path params none none false σ
      (r1 :: rl :: r2 :: rest)).log
        = [.postReq path, .reloginEv, .postReq (some LOGIN_URL), .postReq path]
      ∧ (clientPost (f + 1 + 1 + 1 + 1) path params none none false σ
          (r1 :: rl :: r2 :: rest)).env = rest
      ∧ (clientPost (f + 1 + 1 + 1 + 1) path params none none false σ
          (r1 :: rl :: r2 :: rest)).res
        = (if 200 ≤ r2.status ∧ r2.status < 300 then
             match r2.json with
             | some v => .ok (.json v)
             | none => .ok (.text r2.body)
           else .error (.connectionError r2.status r2.body)) := by
    rw [post401_step (f + 1 + 1 + 1) path params none none σ sh r1
      (rl :: r2 :: rest) hsess h401 hexp, hre]
    simp only [Out.andThen]
    rw [hresP]
    simp [Out.withLog]
  exact ⟨hG, hP⟩

/-- Witness for the amended C1 theorem: a 401 answered once, a login
response, then a 200 — exactly one relogin and one retry in the trace of the
original call, for both `get` and `post`. -/
theorem relogin_retry_once_unless_repeat_401_witness :
    expiredState.session = some [("authorization", "Bearer tok")]
      ∧ expiredState.sessionExpired = true
      ∧ resp401.status = 401 ∧ respOK.status ≠ 401
      ∧ ((clientGet 4 (some "/x") none false expiredState
            [resp401, loginResp, respOK]).log
          = [.getReq (some "/x") none, .reloginEv, .postReq (some LOGIN_URL),
             .getReq (some "/x") none]
        ∧ (clientPost 4 (some "/x") none none none false expiredState
            [resp401, loginResp, respOK]).log
          = [.postReq (some "/x"), .reloginEv, .postReq (some LOGIN_URL),
             .postReq (some "/x")]
        ∧ countRelogin (clientGet 4 (some "/x") none false expiredState
            [resp401, loginResp, respOK]).log = 1) := by
  have h := relogin_retry_once_unless_repeat_401 0 (some "/x") none expiredState
    [("authorization", "Bearer tok")] resp401 loginResp respOK [] rfl rfl rfl
    (by decide)
  refine ⟨rfl, rfl, rfl, by decide, h.1.1, h.2.1, ?_⟩
  rw [h.1.1]
  rfl

/-- C9: if the first balance fetch reports `3.0` (below the `5.0` threshold),
`make_transactions()` creates and confirms zero orders (the only request in
the trace is the single balance fetch) and returns that balance response
unchanged, reporting `3.0`. -/
theorem below_threshold_returns_unchanged :
    (make_transactions 2 2 connectedState [balResp "3.0"]).res
        = .ok (.json (balJson "3.0"))
      ∧ (make_transactions 2 2 connectedState [balResp "3.0"]).log
        = [.getReq (some BALANCE_URL) none]
      ∧ (make_transactions 2 2 connectedState [balResp "3.0"]).env = [] :=
  ⟨rfl, rfl, rfl⟩

/-- C6: with no open session (`session == None`), the inherited `get` fails
with `ensure_session`'s `ConnectionError` before any request is issued (the
environment is untouched), but the overridden `Client.post` — which lost the
`ensure_session` decorator — raises `AttributeError` instead, which is not a
`ConnectionError`; it too sends no request. -/
theorem no_session_request_behavior :
    (clientGet 1 (some "/p") none false noSessionState [respOK]).res
        = .error (.connectionMsg startSessionMsg)
      ∧ (clientGet 1 (some "/p") none false noSessionState [respOK]).env = [respOK]
      ∧ (clientGet 1 (some "/p") none false noSessionState [respOK]).log = []
      ∧ (clientPost 1 (some "/p") none none none false noSessionState [respOK]).res
        = .error .attributeError
      ∧ (clientPost 1 (some "/p") none none none false noSessionState [respOK]).env
        = [respOK]
      ∧ (clientPost 1 (some "/p") none none none false noSessionState [respOK]).log = []
      ∧ Err.isConnectionError .attributeError = false :=
  ⟨rfl, rfl, rfl, rfl, rfl, rfl, rfl⟩

/-- C4 counterexample: calling `refresh_headers` with `remove_token=True`
together with a truthy `cookie` argument, from a clean state, leaves the
stored cookie non-null while the `Cookie` header is absent (the header is
only installed when `cookie and not remove_token`), refuting the claimed
invariant for this call. -/
theorem refresh_headers_cookie_invariant_cex :
    refresh_headers freshState none true false (some "abc")
        = .ok { freshState with
            cookie := some "abc",
            headers := [("Content-Type", "application/json;charset=UTF-8")] }
      ∧ (refresh_headers freshState none true false (some "abc")).toOption.map
          (fun σ => (σ.cookie, hmem σ.headers "Cookie"))
        = some (some "abc", false) :=
  ⟨rfl, rfl⟩

/-- C5 counterexample: a 2xx `get` response whose body is not valid JSON
raises `JSONDecodeError` — the raw text is not returned (`OAuthClient.get`
has no `try/except` around `response.json()`), refuting the claim for
`get`. -/
theorem get_json_failure_raises_cex :
    (clientGet 1 (some "/p") none false connectedState
        [⟨200, [], "not json", none⟩]).res = .error .jsonDecodeError
      ∧ (clientGet 1 (some "/p") none false connectedState
        [⟨200, [], "not json", none⟩]).res ≠ .ok (.text "not json") :=
  ⟨rfl, fun h => Except.noConfusion h⟩

/-- C7 counterexample: a headers-only `post` (the mode the login flow uses)
returns the response headers before any status check, so a 500 response does
not raise the claimed `ConnectionError` — refuting "a status-500 response
always raises". -/
theorem headers_mode_skips_status_check_cex :
    (clientPost 1 (some LOGIN_URL) none none none true connectedState
        [⟨500, [("h", "v")], "boom", none⟩]).res = .ok (.headers [("h", "v")])
      ∧ (clientPost 1 (some LOGIN_URL) none none none true connectedState
        [⟨500, [("h", "v")], "boom", none⟩]).res
        ≠ .error (.connectionError 500 "boom") :=
  ⟨rfl, fun h => Except.noConfusion h⟩

/-- C1 counterexample: with `session_expired` true and a server that answers
401 to the original request and again 401 to the retried request, the single
original `get` call performs two relogins and two retries before returning —
refuting "no second relogin-and-retry happens for the same original call"
(the recursion has no depth bound). -/
theorem relogin_retry_not_single_cex :
    countRelogin (clientGet 10 (some "/x") none false expiredState
        [resp401, loginResp, resp401, loginResp, respOK]).log = 2
      ∧ (clientGet 10 (some "/x") none false expiredState
        [resp401, loginResp, resp401, loginResp, respOK]).res
        = .ok (.json (.obj [("success", .bool true)]))
      ∧ (clientGet 10 (some "/x") none false expiredState
        [resp401, loginResp, resp401, loginResp, respOK]).log
        = [.getReq (some "/x") none, .reloginEv, .postReq (some LOGIN_URL),
           .getReq (some "/x") none, .reloginEv, .postReq (some LOGIN_URL),
           .getReq (some "/x") none] :=
  ⟨rfl, rfl, rfl⟩

end Cotps
